import Mathlib

/-
Verification development for the drizzlepac quality-analysis modules
(drizzlepac/hlautils/quality_analysis.py and
drizzlepac/hlautils/svm_quality_analysis.py).

The Python code is shallowly embedded: numpy float arrays become lists of
rationals, fallible operations (indexing, file reads, integer parsing,
float division by zero) return Option or Except, and the external numeric
primitives that the code merely forwards data to (astropy's
sigma_clipped_stats, math square roots, the spatial cross-matcher) are
taken as explicit function parameters, since the claims under study are
about which data the code hands to them and which results it retains,
never about their numeric values.
-/

set_option maxRecDepth 10000

namespace Drizzlepac

/-- Python dictionary key.  In `extract_residuals` the bookkeeping dict is
keyed by the string `group_name` (a filename) while the membership test on
line 129 of quality_analysis.py is made with the integer `group_id`
(tweakwcs assigns integer group ids); a Python dict accepts keys of mixed
type, so the key type is modelled as a sum of the two. -/
inductive PyKey where
  | int : Int → PyKey
  | str : String → PyKey
deriving DecidableEq

/-- Association list lookup modelling Python `dict.__getitem__` (`none`
models a KeyError). -/
def dictGet {α : Type} (k : PyKey) : List (PyKey × α) → Option α
  | [] => none
  | (k0, v0) :: rest => if k0 = k then some v0 else dictGet k rest

/-- Association list update modelling Python `dict.__setitem__`: replaces
an existing binding in place, otherwise appends (insertion order kept). -/
def dictSet {α : Type} (k : PyKey) (v : α) : List (PyKey × α) → List (PyKey × α)
  | [] => [(k, v)]
  | (k0, v0) :: rest => if k0 = k then (k, v) :: rest else (k0, v0) :: dictSet k v rest

/-- Python `k in d` membership test on a dict. -/
def dictContains {α : Type} (k : PyKey) (d : List (PyKey × α)) : Bool :=
  (dictGet k d).isSome

/-- Numpy fancy indexing `vals[idx]`; `none` models the IndexError raised
on an out-of-range index. -/
def gather {α : Type} (vals : List α) : List ℕ → Option (List α)
  | [] => some []
  | i :: rest =>
    match vals.get? i, gather vals rest with
    | some v, some vs => some (v :: vs)
    | _, _ => none

/-- Numpy boolean-mask compression (`np.compress` semantics: pairs each
value with a mask entry, truncating at the shorter of the two). -/
def compress {α : Type} : List Bool → List α → List α
  | _, [] => []
  | [], _ :: _ => []
  | t :: ms, a :: as => if t then a :: compress ms as else compress ms as

/-- Numpy boolean-mask indexing `vals[mask]`; the mask must have the same
length as the array (`none` models the IndexError otherwise). -/
def boolMask {α : Type} (mask : List Bool) (vals : List α) : Option (List α) :=
  if mask.length = vals.length then some (compress mask vals) else none

/-- Elementwise subtraction of two equal-length numpy arrays (`none`
models the broadcast error raised on a length mismatch). -/
def pySub (a b : List ℚ) : Option (List ℚ) :=
  if a.length = b.length then some (List.zipWith (fun u v => u - v) a b) else none

/-- Positions `j` with `p (indices[j])`, modelling
`np.where(condition(indices))[0]`. -/
def wherePositions (p : ℕ → Bool) (indices : List ℕ) : List ℕ :=
  (indices.enum.filter (fun q => p q.2)).map Prod.fst

/-- Python `max` over a list of naturals; `none` models the ValueError
raised on an empty sequence. -/
def pyMax : List ℕ → Option ℕ
  | [] => none
  | a :: rest =>
    match pyMax rest with
    | none => some a
    | some m => some (max a m)

/-- Test that `needle` begins the character list `hay`. -/
def leadsWith : List Char → List Char → Bool
  | [], _ => true
  | _ :: _, [] => false
  | a :: as, b :: bs => a == b && leadsWith as bs

/-- Substring occurrence test on character lists. -/
def hasSub (needle : List Char) : List Char → Bool
  | [] => leadsWith needle []
  | b :: bs => leadsWith needle (b :: bs) || hasSub needle bs

/-- Python `sub in s` substring containment on strings. -/
def pyIn (sub s : String) : Bool := hasSub sub.toList s.toList

/-- Python `s.startswith(pre)`. -/
def pyStartsWith (pre s : String) : Bool := leadsWith pre.toList s.toList

/-- Split of a character list at every occurrence of `sep` (Python
`str.split(sep)` semantics for a one-character separator: consecutive
separators yield empty fields, the empty input yields one empty field). -/
def splitOnChar (sep : Char) : List Char → List (List Char)
  | [] => [[]]
  | c :: cs =>
    let rest := splitOnChar sep cs
    if c == sep then [] :: rest
    else
      match rest with
      | [] => [[c]]
      | r :: rs => (c :: r) :: rs

/-- Python `s.split(sep)` for a one-character separator. -/
def pySplit (s : String) (sep : Char) : List String :=
  (splitOnChar sep s.toList).map String.mk

/-- Python `s.strip()`: removes leading and trailing whitespace. -/
def pyStrip (s : String) : String :=
  String.mk (((s.toList.dropWhile Char.isWhitespace).reverse.dropWhile
    Char.isWhitespace).reverse)

/-- Decimal digit value of a character, if it is a digit. -/
def digToNat (c : Char) : Option ℕ :=
  if c.isDigit then some (c.toNat - 48) else none

/-- Accumulating decimal parse of a digit list; `none` on any non-digit. -/
def natFromDigits (acc : ℕ) : List Char → Option ℕ
  | [] => some acc
  | c :: cs =>
    match digToNat c with
    | none => none
    | some d => natFromDigits (acc * 10 + d) cs

/-- Signed decimal integer parse of a character list. -/
def pyIntCore : List Char → Option Int
  | [] => none
  | '-' :: cs =>
    if cs.isEmpty then none else (natFromDigits 0 cs).map (fun n => -(n : Int))
  | '+' :: cs =>
    if cs.isEmpty then none else (natFromDigits 0 cs).map (fun n => (n : Int))
  | cs => (natFromDigits 0 cs).map (fun n => (n : Int))

/-- Lift an Option into Except, naming the Python exception that a `none`
stands for. -/
def toExc {α : Type} (msg : String) : Option α → Except String α
  | none => Except.error msg
  | some a => Except.ok a

/- ----------------------------------------------------------------- -/
/- Residual extraction engine: quality_analysis.py, extract_residuals -/
/- ----------------------------------------------------------------- -/

/-- Fit information held in `chip.meta['fit_info']` by tweakwcs for one
chip, restricted to the fields extract_residuals reads. -/
structure FitInfo where
  status : String
  fitmask : List Bool
  matched_ref_idx : List ℕ
  matched_input_idx : List ℕ
  shift : ℚ × ℚ
  rot : ℚ
  scale : ℚ
  nmatches : Int
  skew : ℚ
  fit_RA : List ℚ
  fit_DEC : List ℚ

/-- One entry of the `imglist` consumed by extract_residuals: the chip's
meta dict plus its two coordinate-transform methods (external WCS objects,
modelled as pointwise functions on coordinate pairs). -/
structure Chip where
  group_id : Int
  filename : String
  fit_info : FitInfo
  catalog : List (ℚ × ℚ)
  det_to_world : ℚ × ℚ → ℚ × ℚ
  world_to_tanp : ℚ × ℚ → ℚ × ℚ

/-- Per-group result record built by extract_residuals.  Fields that the
Python dict only acquires later (`xsh` … `skew`) or that start as `None`
(`type`, `rms_x`, `rms_y`) are Options. -/
structure GroupRecord where
  group_id : Int
  type : Option String := none
  x : List ℚ := []
  y : List ℚ := []
  ref_x : List ℚ := []
  ref_y : List ℚ := []
  rms_x : Option ℚ := none
  rms_y : Option ℚ := none
  xsh : Option ℚ := none
  ysh : Option ℚ := none
  rot : Option ℚ := none
  scale : Option ℚ := none
  nmatches : Option Int := none
  skew : Option ℚ := none
deriving DecidableEq

/-- Record freshly initialized on lines 130-133 of quality_analysis.py. -/
def freshRecord (gid : Int) : GroupRecord := { group_id := gid }

/-- Loop state of extract_residuals: the result dict, the run-global
reference world-coordinate buffers, and the running index offset. -/
structure ResidState where
  group_dict : List (PyKey × GroupRecord)
  ref_ra : List ℚ
  ref_dec : List ℚ
  cum_indx : ℕ
deriving DecidableEq

def initResidState : ResidState := { group_dict := [], ref_ra := [], ref_dec := [], cum_indx := 0 }

/-- Result tuple of get_tangent_positions (quality_analysis.py lines
171-187). -/
structure TangentPositions where
  img_x : List ℚ
  img_y : List ℚ
  max_indx : ℕ
  chip_indx : List ℕ
deriving DecidableEq

/-- Embedding of get_tangent_positions: selects the subset of `indices`
falling in the chip's index window `[start_indx, start_indx + len
catalog)` and maps the fitted world positions at those subset positions to
the tangent plane with this chip's transform. -/
def get_tangent_positions (chip : Chip) (indices : List ℕ) (start_indx : ℕ) :
    Option TangentPositions :=
  let img_ra := chip.fit_info.fit_RA
  let img_dec := chip.fit_info.fit_DEC
  let max_indx := chip.catalog.length
  let chip_indx := wherePositions
    (fun v => decide (start_indx ≤ v) && decide (v < max_indx + start_indx)) indices
  match gather img_ra chip_indx, gather img_dec chip_indx with
  | some ras, some decs =>
    let pts := (ras.zip decs).map chip.world_to_tanp
    some { img_x := pts.map Prod.fst, img_y := pts.map Prod.snd,
           max_indx := max_indx, chip_indx := chip_indx }
  | _, _ => none

/-- Computation done by the IMAGE branch of the loop body on one already
initialized record `r` (quality_analysis.py lines 144-166): masks the
matched index arrays with the fit's validity mask, derives tangent-plane
positions of the image side and of the reference side (the latter by
gathering the run-global reference buffer), and rewrites the record.  The
successive Python mutations of the one dict record are combined into a
single record update; `rms_x`/`rms_y` are the external statistic `scs`
(astropy sigma_clipped_stats(...)[-1], default parameters) of this chip's
`img - ref` arrays.  Returns the new record and the new running offset. -/
def imgRecordUpdate (scs : List ℚ → ℚ) (ref_ra ref_dec : List ℚ) (cum_indx : ℕ)
    (chip : Chip) (r : GroupRecord) : Option (GroupRecord × ℕ) := do
  let fitinfo := chip.fit_info
  let ref_indx ← boolMask fitinfo.fitmask fitinfo.matched_ref_idx
  let img_indx ← boolMask fitinfo.fitmask fitinfo.matched_input_idx
  let tp ← get_tangent_positions chip img_indx cum_indx
  let rra ← gather ref_ra ref_indx
  let rdec ← gather ref_dec ref_indx
  let rra2 ← gather rra tp.chip_indx
  let rdec2 ← gather rdec tp.chip_indx
  let rpts := (rra2.zip rdec2).map chip.world_to_tanp
  let ref_x := rpts.map Prod.fst
  let ref_y := rpts.map Prod.snd
  let dx ← pySub tp.img_x ref_x
  let dy ← pySub tp.img_y ref_y
  pure ({ r with
      type := some "IMAGE",
      xsh := some fitinfo.shift.1, ysh := some fitinfo.shift.2,
      rot := some fitinfo.rot, scale := some fitinfo.scale,
      nmatches := some fitinfo.nmatches, skew := some fitinfo.skew,
      x := r.x ++ tp.img_x, y := r.y ++ tp.img_y,
      ref_x := r.ref_x ++ ref_x, ref_y := r.ref_y ++ ref_y,
      rms_x := some (scs dx), rms_y := some (scs dy) },
    cum_indx + tp.max_indx)

/-- IMAGE branch of the loop body: read the record stored under the chip's
group name (KeyError if absent), rewrite it via `imgRecordUpdate`, store it
back and advance the running offset. -/
def imgBranch (scs : List ℚ → ℚ) (st : ResidState) (chip : Chip) : Option ResidState :=
  match dictGet (PyKey.str chip.filename) st.group_dict with
  | none => none
  | some r =>
    match imgRecordUpdate scs st.ref_ra st.ref_dec st.cum_indx chip r with
    | none => none
    | some ru =>
      some { st with
             group_dict := dictSet (PyKey.str chip.filename) ru.1 st.group_dict,
             cum_indx := ru.2 }

/-- REFERENCE branch of the loop body (quality_analysis.py lines 136-142):
tag the record, convert the chip catalog's detector positions to world
coordinates with this chip's transform and append them to the run-global
reference buffers; the record's position accumulators are not touched. -/
def refBranch (st : ResidState) (chip : Chip) : Option ResidState :=
  match dictGet (PyKey.str chip.filename) st.group_dict with
  | none => none
  | some r =>
    let pts := chip.catalog.map chip.det_to_world
    some { st with
           group_dict := dictSet (PyKey.str chip.filename)
             { r with type := some "REFERENCE" } st.group_dict,
           ref_ra := st.ref_ra ++ pts.map Prod.fst,
           ref_dec := st.ref_dec ++ pts.map Prod.snd }

/-- One iteration of the loop of extract_residuals.  The initialization
guard is line 129 of quality_analysis.py: `if group_id not in group_dict`,
with the dict keyed by the string group NAME on line 130 — the int key can
never equal a string key, so on every chip of a real run the test
succeeds, the record is re-created empty and `cum_indx` is reset to 0.
Any chip whose fit status is not the string REFERENCE falls through to the
IMAGE branch; no other status value is inspected. -/
def processChip (scs : List ℚ → ℚ) (st : ResidState) (chip : Chip) : Option ResidState :=
  let st1 :=
    if dictContains (PyKey.int chip.group_id) st.group_dict then st
    else { st with
           group_dict := dictSet (PyKey.str chip.filename)
             (freshRecord chip.group_id) st.group_dict,
           cum_indx := 0 }
  if chip.fit_info.status = "REFERENCE" then refBranch st1 chip
  else imgBranch scs st1 chip

/-- Fold of a loop body over the chip list, propagating an exception. -/
def runChips (step : ResidState → Chip → Option ResidState) :
    ResidState → List Chip → Option ResidState
  | st, [] => some st
  | st, c :: cs =>
    match step st c with
    | none => none
    | some st2 => runChips step st2 cs

/-- Embedding of extract_residuals (quality_analysis.py lines 120-169),
parameterized by the external statistic `scs`. -/
def extract_residuals (scs : List ℚ → ℚ) (imglist : List Chip) :
    Option (List (PyKey × GroupRecord)) :=
  (runChips (processChip scs) initResidState imglist).map ResidState.group_dict

/- Spec-side variant, for the refinement comparison of claims C1 and C2. -/

/-- Follows the spec's words (section 4.1, steps 2 and 4), not the code:
`rms_x`/`rms_y` are recomputed over the record's FULL accumulated
position lists each time new data is appended, rather than over the most
recent chip's contribution alone. -/
def imgRecordUpdate_specmodel (scs : List ℚ → ℚ) (ref_ra ref_dec : List ℚ) (cum_indx : ℕ)
    (chip : Chip) (r : GroupRecord) : Option (GroupRecord × ℕ) := do
  let fitinfo := chip.fit_info
  let ref_indx ← boolMask fitinfo.fitmask fitinfo.matched_ref_idx
  let img_indx ← boolMask fitinfo.fitmask fitinfo.matched_input_idx
  let tp ← get_tangent_positions chip img_indx cum_indx
  let rra ← gather ref_ra ref_indx
  let rdec ← gather ref_dec ref_indx
  let rra2 ← gather rra tp.chip_indx
  let rdec2 ← gather rdec tp.chip_indx
  let rpts := (rra2.zip rdec2).map chip.world_to_tanp
  let ref_x := rpts.map Prod.fst
  let ref_y := rpts.map Prod.snd
  let acc_x := r.x ++ tp.img_x
  let acc_y := r.y ++ tp.img_y
  let acc_rx := r.ref_x ++ ref_x
  let acc_ry := r.ref_y ++ ref_y
  let dx ← pySub acc_x acc_rx
  let dy ← pySub acc_y acc_ry
  pure ({ r with
      type := some "IMAGE",
      xsh := some fitinfo.shift.1, ysh := some fitinfo.shift.2,
      rot := some fitinfo.rot, scale := some fitinfo.scale,
      nmatches := some fitinfo.nmatches, skew := some fitinfo.skew,
      x := acc_x, y := acc_y, ref_x := acc_rx, ref_y := acc_ry,
      rms_x := some (scs dx), rms_y := some (scs dy) },
    cum_indx + tp.max_indx)

/-- Follows the spec's words (section 4.1, step 2), not the code: the
record is initialized, and the running offset reset to 0, only on the
FIRST appearance of a group NAME; on a later chip carrying the same name
the accumulators and the offset persist. -/
def processChip_specmodel (scs : List ℚ → ℚ) (st : ResidState) (chip : Chip) :
    Option ResidState :=
  let st1 :=
    if dictContains (PyKey.str chip.filename) st.group_dict then st
    else { st with
           group_dict := dictSet (PyKey.str chip.filename)
             (freshRecord chip.group_id) st.group_dict,
           cum_indx := 0 }
  if chip.fit_info.status = "REFERENCE" then refBranch st1 chip
  else
    match dictGet (PyKey.str chip.filename) st1.group_dict with
    | none => none
    | some r =>
      match imgRecordUpdate_specmodel scs st1.ref_ra st1.ref_dec st1.cum_indx chip r with
      | none => none
      | some ru =>
        some { st1 with
               group_dict := dictSet (PyKey.str chip.filename) ru.1 st1.group_dict,
               cum_indx := ru.2 }

/-- Residual extraction as the spec describes it, for comparison with
`extract_residuals`. -/
def extract_residuals_specmodel (scs : List ℚ → ℚ) (imglist : List Chip) :
    Option (List (PyKey × GroupRecord)) :=
  (runChips (processChip_specmodel scs) initResidState imglist).map ResidState.group_dict

/- ------------------------------------------------------------------- -/
/- Caller-level guard: quality_analysis.py, determine_alignment_residuals -/
/- ------------------------------------------------------------------- -/

/-- Outcome abstraction for determine_alignment_residuals: everything
after the source-count guard (WCS assembly, TPMatch, align_wcs,
serialization) is external and collapsed into `proceeded` = "matching was
attempted". -/
inductive AlignOutcome where
  | raised : AlignOutcome
  | noresult : AlignOutcome
  | proceeded : AlignOutcome
deriving DecidableEq

/-- Embedding of the source-count guard of determine_alignment_residuals
(quality_analysis.py lines 64-80).  Each input file is reduced to its
per-chip counts of extracted point sources (the extraction adapter is
external); `num_srcs` holds one per-file total, and the guard returns None
when `max(num_srcs) <= 3`.  Python's `max` on the empty list raises a
ValueError, modelled by `raised`. -/
def determine_alignment_residuals (files : List (List ℕ)) : AlignOutcome :=
  let num_srcs := files.map (fun chip_counts => chip_counts.sum)
  match pyMax num_srcs with
  | none => AlignOutcome.raised
  | some m => if m ≤ 3 then AlignOutcome.noresult else AlignOutcome.proceeded

/- ----------------------------------------------------------------- -/
/- Cross-match statistics engine: svm_quality_analysis.py            -/
/- ----------------------------------------------------------------- -/

/-- Catalog table as produced by reading a point/segment .ecsv file: a
set of column names; per column, a total cell-value function over row
indices (rationals standing for the float and integer cells), plus a
missingness flag per cell standing for NaN/sentinel entries; and a row
count shared by all columns. -/
structure CatTable where
  colnames : List String
  val : String → ℕ → ℚ
  miss : String → ℕ → Bool
  nrows : ℕ

/-- Integer value of a quality-flag cell (flag columns hold nonnegative
integers). -/
def ratToNat (q : ℚ) : ℕ := q.num.toNat

/-- Bound check of a matched-index list against a table's row count. -/
def allInBounds (idx : List ℕ) (n : ℕ) : Bool := idx.all (fun i => decide (i < n))

/-- Modelled from the spec: extract_matched_column of section 4.3 — the
repository's devutils helper `compare_sourcelists.extractMatchedLines` is
not under src.  Row-gathers the named column from each catalog at the given
indices, optionally compressing both rows by one boolean mask.  `none`
models the KeyError on a missing column or the IndexError on an
out-of-range index. -/
def extractMatchedLines (col : String) (tabA tabB : CatTable)
    (idxA idxB : List ℕ) (bitmask : Option (List Bool)) :
    Option (List ℚ × List ℚ) :=
  if col ∈ tabA.colnames ∧ col ∈ tabB.colnames then
    if allInBounds idxA tabA.nrows ∧ allInBounds idxB tabB.nrows then
      let rowA := idxA.map (tabA.val col)
      let rowB := idxB.map (tabB.val col)
      match bitmask with
      | none => some (rowA, rowB)
      | some m => some (compress m rowA, compress m rowB)
    else none
  else none

/-- Modelled from the spec: mask_missing_values of section 4.3 — the
devutils helper is not under src.  True at a matched pair exactly when
none of the listed columns is missing at that pair's row in either
catalog. -/
def mask_missing_values (tabA tabB : CatTable) (idxA idxB : List ℕ)
    (cols : List String) : List Bool :=
  (idxA.zip idxB).map (fun p =>
    cols.all (fun c => !(tabA.miss c p.1) && !(tabB.miss c p.2)))

/-- Modelled from the spec: build_quality_mask of section 4.3 — the
devutils helper `make_flag_mask` is not under src.  A matched pair is good
exactly when the bitwise AND of its two integer flag values equals the
good-bits constant and the pair survives the missing-value mask. -/
def make_flag_mask (matched_values : List ℚ × List ℚ) (good_flag_sum : ℕ)
    (missing_mask : List Bool) : List Bool :=
  ((matched_values.1.zip matched_values.2).zip missing_mask).map
    (fun p => (Nat.land (ratToNat p.1.1) (ratToNat p.1.2) == good_flag_sum) && p.2)

/-- Numpy arithmetic mean (sum over length). -/
def npMean (l : List ℚ) : ℚ := l.sum / (l.length : ℚ)

/-- Sorted insertion, ascending. -/
def insertSorted (a : ℚ) : List ℚ → List ℚ
  | [] => [a]
  | b :: rest => if a ≤ b then a :: b :: rest else b :: insertSorted a rest

/-- Ascending sort by insertion. -/
def pySort (l : List ℚ) : List ℚ := l.foldr insertSorted []

/-- Numpy median: middle element of the sorted data for odd length, mean
of the two middle elements for even length. -/
def npMedian (l : List ℚ) : ℚ :=
  let s := pySort l
  if l.length % 2 = 1 then s.getD (l.length / 2) 0
  else (s.getD (l.length / 2 - 1) 0 + s.getD (l.length / 2) 0) / 2

/-- Numpy population standard deviation, parameterized by the external
real square root primitive `sq`. -/
def npStd (sq : ℚ → ℚ) (l : List ℚ) : ℚ :=
  sq (npMean (l.map (fun x => (x - npMean l) * (x - npMean l))))

/-- Statistics retained for one magnitude column by compare_photometry
(the keys Mean Difference, Standard Deviation, Median Difference of the
serialized stat_dict). -/
structure PhotStat where
  mean_diff : ℚ
  std_diff : ℚ
  median_diff : ℚ
deriving DecidableEq

/-- Loop body of compare_photometry over one magnitude column
(svm_quality_analysis.py lines 584-609): gather the mask-surviving
matched magnitudes, form the Point − Segment differences, take their
median/mean/std, then gather the matching error columns and propagate
them in quadrature.  The propagated errors are returned alongside the
stat record; the record itself holds only the three difference
statistics. -/
def photColumnStats (sq : ℚ → ℚ) (tabP tabS : CatTable) (mP mS : List ℕ)
    (flag_values_mask : List Bool) (phot_col err_col : String) :
    Option (PhotStat × List ℚ) := do
  let matching_phot_rows ← extractMatchedLines phot_col tabP tabS mP mS (some flag_values_mask)
  let delta_phot := List.zipWith (fun a b => a - b) matching_phot_rows.1 matching_phot_rows.2
  let median_delta_phot := npMedian delta_phot
  let mean_delta_phot := npMean delta_phot
  let std_delta_phot := npStd sq delta_phot
  let matching_error_rows ← extractMatchedLines err_col tabP tabS mP mS (some flag_values_mask)
  let result_error := List.zipWith (fun a b => sq (a * a + b * b))
    matching_error_rows.1 matching_error_rows.2
  pure ({ mean_diff := mean_delta_phot, std_diff := std_delta_phot,
          median_diff := median_delta_phot }, result_error)

/-- Output artifact of compare_photometry for one drizzle product: the
JSON filename and, per magnitude column, the retained statistics. -/
structure PhotProductResult where
  json_filename : String
  stats : List (String × PhotStat)
deriving DecidableEq

/-- Astropy Table.rename_column: renames a column, `none` modelling the
KeyError raised when the old name is absent. -/
def renameColumn (old new : String) (t : CatTable) : Option CatTable :=
  if old ∈ t.colnames then
    some { t with
           colnames := t.colnames.map (fun c => if c = old then new else c),
           val := fun c => if c = new then t.val old else t.val c,
           miss := fun c => if c = new then t.miss old else t.miss c }
  else none

/-- Loop body of compare_photometry for one drizzle product
(svm_quality_analysis.py lines 512-618).  `fs` is the working directory
(ascii.read results; `none` = the file is absent, and os.path.isfile is
the same map's domain); `matcher` is the external getMatchedLists spatial
cross-matcher, keyed by the product.  NOTE (lines 534-539): the
existence-check loop only logs; its `continue` statement advances the
inner catalog loop rather than skipping the product, so control always
reaches the unconditional ascii.read calls below, which raise on a
missing file.  `Except.ok none` models a product skipped with a warning
(the zero-matches branch), `Except.error` an uncaught exception. -/
def compare_photometry_product (sq : ℚ → ℚ) (fs : String → Option CatTable)
    (matcher : String → List ℕ × List ℕ) (drizzle_file : String) :
    Except String (Option PhotProductResult) := do
  let tokens := pySplit drizzle_file '_'
  let detector ← toExc "IndexError" (tokens.get? 4)
  let filter_name ← toExc "IndexError" (tokens.get? 5)
  let ipppss ← toExc "IndexError" (tokens.get? 6)
  let json_filename := String.intercalate "_" [ipppss, detector, "svm", filter_name, "photometry.json"]
  let prefx := String.intercalate "_" tokens.dropLast
  let cat0 := prefx ++ "_point-cat.ecsv"
  let cat1 := prefx ++ "_segment-cat.ecsv"
  let rawP ← toExc ("FileNotFoundError: " ++ cat0) (fs cat0)
  let rawS ← toExc ("FileNotFoundError: " ++ cat1) (fs cat1)
  let p1 ← toExc "KeyError: X-Center" (renameColumn "X-Center" "X" rawP)
  let tabP ← toExc "KeyError: Y-Center" (renameColumn "Y-Center" "Y" p1)
  let s1 ← toExc "KeyError: X-Centroid" (renameColumn "X-Centroid" "X" rawS)
  let tabS ← toExc "KeyError: Y-Centroid" (renameColumn "Y-Centroid" "Y" s1)
  let common_columns := tabP.colnames.filter (fun c => decide (c ∈ tabS.colnames))
  let m := matcher drizzle_file
  if m.1.length = 0 ∨ m.2.length = 0 then
    return none
  else
    let missing_values_mask := mask_missing_values tabP tabS m.1 m.2 common_columns
    let flag_matching ← toExc "KeyError: Flags"
      (extractMatchedLines "Flags" tabP tabS m.1 m.2 none)
    let flag_values_mask := make_flag_mask flag_matching 255 missing_values_mask
    let ps1 ← toExc "KeyError: MagAp1"
      (photColumnStats sq tabP tabS m.1 m.2 flag_values_mask "MagAp1" "MagErrAp1")
    let ps2 ← toExc "KeyError: MagAp2"
      (photColumnStats sq tabP tabS m.1 m.2 flag_values_mask "MagAp2" "MagErrAp2")
    return some { json_filename := json_filename,
                  stats := [("MagAp1", ps1.1), ("MagAp2", ps2.1)] }

/-- Embedding of compare_photometry (svm_quality_analysis.py lines
482-618): the product loop collects one artifact per product that
completes; an uncaught exception in a loop body propagates and aborts the
whole batch (there is no try/except around the loop). -/
def compare_photometry (sq : ℚ → ℚ) (fs : String → Option CatTable)
    (matcher : String → List ℕ × List ℕ) :
    List String → Except String (List PhotProductResult)
  | [] => Except.ok []
  | d :: rest =>
    match compare_photometry_product sq fs matcher d with
    | Except.error e => Except.error e
    | Except.ok none => compare_photometry sq fs matcher rest
    | Except.ok (some r) =>
      match compare_photometry sq fs matcher rest with
      | Except.error e => Except.error e
      | Except.ok rs => Except.ok (r :: rs)

/-- Embedding of compare_ra_dec_crossmatches (svm_quality_analysis.py
lines 237-375) up to and including its artifact decision.  The two
catalog tables and the external cross-matcher's two index lists are
inputs; the SkyCoord frame conversion and separation statistics of the
success branch are external and only the artifact filename is retained
(`Except.ok (some name)` = json written, `Except.ok none` = function
returned without an artifact, `Except.error` = uncaught exception).
NOTE (lines 294-303): before the zero-match guard the two log calls
compute `100.0 * (float(n_matches) / float(catalog_length))` eagerly, so
an empty catalog raises a ZeroDivisionError. -/
def compare_ra_dec_crossmatches (tabP tabS : CatTable)
    (matching_lines_ref matching_lines_img : List ℕ)
    (drizzle_filename : String) : Except String (Option String) :=
  let columns_to_compare := tabP.colnames.filter (fun c => decide (c ∈ tabS.colnames))
  let slLen0 := tabP.nrows
  let slLen1 := tabS.nrows
  if slLen0 = 0 ∨ slLen1 = 0 then Except.error "ZeroDivisionError"
  else if matching_lines_ref.length = 0 ∨ matching_lines_img.length = 0 then
    Except.ok none
  else
    let missing_mask := mask_missing_values tabP tabS matching_lines_ref
      matching_lines_img columns_to_compare
    match extractMatchedLines "FLAGS" tabP tabS matching_lines_ref matching_lines_img none with
    | none => Except.error "KeyError: FLAGS"
    | some matched_values =>
      let bitmask := make_flag_mask matched_values 255 missing_mask
      match extractMatchedLines "RA" tabP tabS matching_lines_ref matching_lines_img (some bitmask),
            extractMatchedLines "DEC" tabP tabS matching_lines_ref matching_lines_img (some bitmask) with
      | some mra, some mdec =>
        if 0 < mra.1.length ∧ mra.1.length = mdec.1.length then
          Except.ok (some (drizzle_filename.dropRight 9 ++ "_svm_point_segment_crossmatch.json"))
        else Except.ok none
      | _, _ => Except.error "KeyError: RA or DEC"

/- ----------------------------------------------------------------- -/
/- Source counting: svm_quality_analysis.py, compare_num_sources     -/
/- ----------------------------------------------------------------- -/

/-- The sources_dict serialized by compare_num_sources for one product. -/
structure SourcesDict where
  detector : String
  point : Int
  segment : Int
deriving DecidableEq

/-- Catalog type attribution of compare_num_sources line 220:
`'point' if catalog.find("point") != -1 else 'segment'`. -/
def catType (catalog : String) : String :=
  if pyIn "point" catalog then "point" else "segment"

/-- Write `sources_dict[cat_type] = v`. -/
def setCatCount (d : SourcesDict) (cat_type : String) (v : Int) : SourcesDict :=
  if cat_type = "point" then { d with point := v } else { d with segment := v }

/-- Scan of the leading lines of a catalog file (compare_num_sources
lines 205-218): break with nothing at the first non-comment line; break
with the extracted token when a comment line contains 'Number of
sources' (last space-separated token, final character dropped). -/
def scanNumSources : List String → Option String
  | [] => none
  | line :: rest =>
    let sline := pyStrip line
    if !(pyStartsWith "#" sline) then none
    else if pyIn "Number of sources" sline then
      some (((pySplit sline ' ').getLastD "").dropRight 1)
    else scanNumSources rest

/-- Python `int()` on a string: strips whitespace, then parses an
optionally signed decimal literal (`none` models the ValueError). -/
def pyInt (s : String) : Option Int := pyIntCore (pyStrip s).toList

/-- Inner catalog loop body of compare_num_sources (lines 197-221): the
existence test is substring occurrence of the constructed catalog name in
any element of `catalog_list`; a catalog absent from the list leaves the
dict untouched; a present catalog is opened (raising if the file is
actually absent from the working directory `fs`), scanned, and its count —
`-1` when no 'Number of sources' comment is found — written under its
catalog type. -/
def processCatalog (catalog_list : List String) (fs : String → Option (List String))
    (catalog : String) (d : SourcesDict) : Except String SourcesDict :=
  let does_exist := catalog_list.any (fun x => pyIn catalog x)
  if does_exist then
    match fs catalog with
    | none => Except.error ("FileNotFoundError: " ++ catalog)
    | some lines =>
      match scanNumSources lines with
      | none => Except.ok (setCatCount d (catType catalog) (-1))
      | some s =>
        match pyInt s with
        | none => Except.error "ValueError"
        | some v => Except.ok (setCatCount d (catType catalog) v)
  else Except.ok d

/-- Loop body of compare_num_sources for one drizzle product (lines
179-233): parse the drizzle filename, process the point catalog then the
segment catalog, and write the JSON artifact named from the filename
tokens.  The returned pair is the artifact: its filename and the
serialized sources_dict (the write itself always happens when the body
completes). -/
def compare_num_sources_product (catalog_list : List String)
    (fs : String → Option (List String)) (drizzle_file : String) :
    Except String (String × SourcesDict) := do
  let tokens := pySplit drizzle_file '_'
  let detector ← toExc "IndexError" (tokens.get? 4)
  let ipppss ← toExc "IndexError" (tokens.get? 6)
  let d0 : SourcesDict := { detector := detector, point := 0, segment := 0 }
  let json_filename := ipppss ++ "_" ++ detector ++ "_svm_num_sources.json"
  let prefx := String.intercalate "_" tokens.dropLast
  let d1 ← processCatalog catalog_list fs (prefx ++ "_point-cat.ecsv") d0
  let d2 ← processCatalog catalog_list fs (prefx ++ "_segment-cat.ecsv") d1
  pure (json_filename, d2)

/- ----------------------------------------------------------------- -/
/- Concrete instances used by the counterexamples and scenarios      -/
/- ----------------------------------------------------------------- -/

/-- Identity coordinate transform, used where the concrete scenarios need
an explicit world/tangent-plane mapping. -/
def idT : ℚ × ℚ → ℚ × ℚ := fun p => p

/-- Concrete stand-in for the external sigma-clipped statistic in the
closed evaluations: the length of the residual array.  It distinguishes
exactly what the affected claims are about — over which data the statistic
is taken. -/
def scsLen : List ℚ → ℚ := fun l => (l.length : ℚ)

/-- Fit-info stub of a REFERENCE chip (its fit fields are never read). -/
def refFit : FitInfo :=
  { status := "REFERENCE", fitmask := [], matched_ref_idx := [], matched_input_idx := [],
    shift := (0, 0), rot := 0, scale := 1, nmatches := 0, skew := 0,
    fit_RA := [], fit_DEC := [] }

/-- REFERENCE chip whose world catalog is [(10, 20), (10.001, 20.001)]. -/
def chipRefA : Chip :=
  { group_id := 1, filename := "a.fits", fit_info := refFit,
    catalog := [(10, 20), (10 + 1/1000, 20 + 1/1000)],
    det_to_world := idT, world_to_tanp := idT }

/-- First chip of group name b.fits: one matched pair at global index 0,
one-row chip catalog. -/
def chipB1 : Chip :=
  { group_id := 2, filename := "b.fits",
    fit_info :=
      { status := "SUCCESS", fitmask := [true],
        matched_ref_idx := [0], matched_input_idx := [0],
        shift := (1/2, -3/10), rot := 0, scale := 1, nmatches := 2, skew := 0,
        fit_RA := [10], fit_DEC := [20] },
    catalog := [(0, 0)], det_to_world := idT, world_to_tanp := idT }

/-- Second chip of group name b.fits: one matched pair at global index 1
(offset past chipB1's one-row catalog), two-row chip catalog, so the pair
falls in this chip's window both with a persisting offset (window [1,3))
and with a reset offset (window [0,2)). -/
def chipB2 : Chip :=
  { group_id := 2, filename := "b.fits",
    fit_info :=
      { status := "SUCCESS", fitmask := [true],
        matched_ref_idx := [1], matched_input_idx := [1],
        shift := (1/2, -3/10), rot := 0, scale := 1, nmatches := 2, skew := 0,
        fit_RA := [30], fit_DEC := [40] },
    catalog := [(0, 0), (0, 0)], det_to_world := idT, world_to_tanp := idT }

/-- Run with one REFERENCE chip and two chips of the one IMAGE group. -/
def chipsTwoChipGroup : List Chip := [chipRefA, chipB1, chipB2]

/-- IMAGE chip whose fit validity mask rejects its only matched pair. -/
def chipNoSurvivors : Chip :=
  { group_id := 3, filename := "c.fits",
    fit_info :=
      { status := "SUCCESS", fitmask := [false],
        matched_ref_idx := [5], matched_input_idx := [5],
        shift := (0, 0), rot := 0, scale := 1, nmatches := 0, skew := 0,
        fit_RA := [], fit_DEC := [] },
    catalog := [(0, 0)], det_to_world := idT, world_to_tanp := idT }

/-- Chip carrying an undocumented fit status value with otherwise
well-formed fit fields. -/
def chipBogusStatus : Chip :=
  { group_id := 4, filename := "e.fits",
    fit_info :=
      { status := "BOGUS", fitmask := [true],
        matched_ref_idx := [0], matched_input_idx := [0],
        shift := (1/4, 1/4), rot := 0, scale := 1, nmatches := 1, skew := 0,
        fit_RA := [10], fit_DEC := [20] },
    catalog := [(0, 0)], det_to_world := idT, world_to_tanp := idT }

/-- Loop state holding one accumulated reference position. -/
def stOneRef : ResidState :=
  { group_dict := [], ref_ra := [10], ref_dec := [20], cum_indx := 0 }

/-- Scenario chips of spec section 8 item 5: group A is REFERENCE with
world catalog [(10, 20), (10.001, 20.001)]. -/
def chipA9 : Chip :=
  { group_id := 1, filename := "A.fits", fit_info := refFit,
    catalog := [(10, 20), (10 + 1/1000, 20 + 1/1000)],
    det_to_world := idT, world_to_tanp := idT }

/-- Scenario chips of spec section 8 item 5: group B is IMAGE with
matched_input_idx = [0, 1], matched_ref_idx = [0, 1], fitmask all true and
shift (0.5, -0.3). -/
def chipB9 : Chip :=
  { group_id := 2, filename := "B.fits",
    fit_info :=
      { status := "SUCCESS", fitmask := [true, true],
        matched_ref_idx := [0, 1], matched_input_idx := [0, 1],
        shift := (1/2, -3/10), rot := 0, scale := 1, nmatches := 2, skew := 0,
        fit_RA := [10, 10 + 1/1000], fit_DEC := [20, 20 + 1/1000] },
    catalog := [(0, 0), (1, 1)], det_to_world := idT, world_to_tanp := idT }

/-- Spec-side description for the photometry claim: the raw per-pair
differences (point value minus segment value) over the mask-surviving
matched pairs of a column. -/
def maskSurvivingDiffs (tabP tabS : CatTable) (mP mS : List ℕ)
    (mask : List Bool) (col : String) : List ℚ :=
  (compress mask (mP.zip mS)).map (fun p => tabP.val col p.1 - tabS.val col p.2)

/-- Identity stand-in for the external square-root primitive in closed
evaluations. -/
def sqId : ℚ → ℚ := fun q => q

/-- Loop state with one prior binding under a different name, a prior
offset and the same reference buffer as `stOneRef`; used to exercise
independence from previously accumulated state. -/
def stOneRefOther : ResidState :=
  { group_dict := [(PyKey.str "other.fits", freshRecord 9)],
    ref_ra := [10], ref_dec := [20], cum_indx := 7 }

/-- State reached by processing chipB1 from `stOneRef`. -/
def stAfterB1 : ResidState :=
  (processChip scsLen stOneRef chipB1).getD initResidState

/-- State reached by processing the unknown-status chip from `stOneRef`. -/
def stAfterBogus : ResidState :=
  (processChip scsLen stOneRef chipBogusStatus).getD initResidState

/-- Point catalog table used in the photometry batch evaluation. -/
def tblPointB : CatTable :=
  { colnames := ["X-Center", "Y-Center", "RA", "DEC", "Flags",
                 "MagAp1", "MagErrAp1", "MagAp2", "MagErrAp2"],
    val := fun c _ =>
      if c = "Flags" then 255
      else if c = "MagAp1" then 21
      else if c = "MagAp2" then 23
      else if c = "MagErrAp1" then 1
      else if c = "MagErrAp2" then 1
      else 0,
    miss := fun _ _ => false, nrows := 1 }

/-- Segment catalog table used in the photometry batch evaluation. -/
def tblSegB : CatTable :=
  { colnames := ["X-Centroid", "Y-Centroid", "RA", "DEC", "Flags",
                 "MagAp1", "MagErrAp1", "MagAp2", "MagErrAp2"],
    val := fun c _ =>
      if c = "Flags" then 255
      else if c = "MagAp1" then 20
      else if c = "MagAp2" then 22
      else if c = "MagErrAp1" then 1
      else if c = "MagErrAp2" then 1
      else 0,
    miss := fun _ _ => false, nrows := 1 }

/-- Photometry batch: first product's catalogs are absent from the
working directory, second product's catalogs are complete. -/
def drizA : String := "hst_11665_06_wfc3_ir_f110w_ib4606_drz.fits"

/-- Second drizzle product of the photometry batch. -/
def drizB : String := "hst_11665_06_wfc3_ir_f160w_ib4607_drz.fits"

/-- Working directory of the photometry batch: only drizB's two catalogs
exist. -/
def fsPhot : String → Option CatTable := fun s =>
  if s = "hst_11665_06_wfc3_ir_f160w_ib4607_point-cat.ecsv" then some tblPointB
  else if s = "hst_11665_06_wfc3_ir_f160w_ib4607_segment-cat.ecsv" then some tblSegB
  else none

/-- External cross-matcher of the photometry batch: one matched pair. -/
def matcherPhot : String → List ℕ × List ℕ := fun _ => ([0], [0])

/-- Catalog table with two rows for the crossmatch guard evaluations. -/
def tblXm : CatTable :=
  { colnames := ["RA", "DEC", "FLAGS"], val := fun _ _ => 0,
    miss := fun _ _ => false, nrows := 2 }

/-- Empty catalog table (zero rows) for the crossmatch guard
evaluations. -/
def tblXmEmpty : CatTable :=
  { colnames := ["RA", "DEC", "FLAGS"], val := fun _ _ => 0,
    miss := fun _ _ => false, nrows := 0 }

/-- Point-side table of the photometry stats witness. -/
def tblWP : CatTable :=
  { colnames := ["MagAp1", "MagErrAp1"],
    val := fun c i => if c = "MagAp1" then (if i = 0 then 5 else 7) else 1,
    miss := fun _ _ => false, nrows := 2 }

/-- Segment-side table of the photometry stats witness. -/
def tblWS : CatTable :=
  { colnames := ["MagAp1", "MagErrAp1"],
    val := fun c i => if c = "MagAp1" then (if i = 0 then 4 else 6) else 2,
    miss := fun _ _ => false, nrows := 2 }

/-- Drizzle product of the source-count witness. -/
def drizN : String := "hst_11665_06_wfc3_ir_total_ib4606_drz.fits"

/-- Segment catalog name of the source-count witness product. -/
def segN : String := "hst_11665_06_wfc3_ir_total_ib4606_segment-cat.ecsv"

/-- Working directory of the source-count witness: the segment catalog
exists with a comment header that carries no 'Number of sources' line. -/
def fsNum : String → Option (List String) := fun s =>
  if s = segN then some ["# comment header", "1.0 2.0 3.0"] else none

/-- Invariant of the extract_residuals loop state: the result dict never
holds an integer key (only string group names are ever inserted, which is
what makes the line-129 membership test vacuous), and every record tagged
REFERENCE has empty position accumulators. -/
def ResidInv (d : List (PyKey × GroupRecord)) : Prop :=
  (∀ n : Int, dictGet (PyKey.int n) d = none) ∧
  (∀ k r, dictGet k d = some r → r.type = some "REFERENCE" →
    r.x = [] ∧ r.y = [] ∧ r.ref_x = [] ∧ r.ref_y = [])

/- ----------------------------------------------------------------- -/
/- Claim theorems: closed evaluations                                -/
/- ----------------------------------------------------------------- -/

/-- Claim C1 (code_bug): the record and the offset are claimed to be
initialized only on a group name's first appearance, with the
accumulators appending and the offset persisting across that name's later
chips.  On the failing input `chipsTwoChipGroup` — two 1-match chips of
the one group name b.fits — the code's membership guard (the int group_id
tested against a dict keyed by string names) fires on both chips, so the
second chip restarts from an empty record and offset 0: the final record
holds only the second chip's single position [30], where the engine as
specified (extract_residuals_specmodel) accumulates both positions
[10, 30]. -/
theorem residuals_reinitialize_every_chip :
    ((extract_residuals scsLen chipsTwoChipGroup).bind
        (dictGet (PyKey.str "b.fits"))).map (fun r => (r.x.length, r.x)) =
      some (1, [30]) ∧
    ((extract_residuals_specmodel scsLen chipsTwoChipGroup).bind
        (dictGet (PyKey.str "b.fits"))).map (fun r => (r.x.length, r.x)) =
      some (2, [10, 30]) := by
  constructor
  · rfl
  · rfl

/-- Claim C2, counterexample: on `chipsTwoChipGroup` the claim says
rms_x is the statistic over the full running accumulation of residuals of
group b.fits (two residuals after the second chip, as the spec-side model
computes), but the code evaluates the statistic over the most recent
chip's one residual: with the length statistic standing in for the
external clipped-std, the code stores 1 where the claim requires 2. -/
theorem rms_full_accumulation_counterexample :
    ((extract_residuals scsLen chipsTwoChipGroup).bind
        (dictGet (PyKey.str "b.fits"))).map (fun r => r.rms_x) = some (some 1) ∧
    ((extract_residuals_specmodel scsLen chipsTwoChipGroup).bind
        (dictGet (PyKey.str "b.fits"))).map (fun r => r.rms_x) = some (some 2) ∧
    (1 : ℚ) ≠ 2 := by
  refine ⟨rfl, rfl, ?_⟩
  decide

/-- Claim C3, counterexample: a call on an empty file list has fewer than
4 detected sources in total (zero), yet it does not return the no-result
signal — Python's max() raises a ValueError on the empty per-file count
list before the guard can return None. -/
theorem alignment_empty_input_raises :
    determine_alignment_residuals [] = AlignOutcome.raised ∧
    AlignOutcome.raised ≠ AlignOutcome.noresult ∧
    (([] : List (List ℕ)).map List.sum).sum < 4 := by
  refine ⟨rfl, ?_, ?_⟩ <;> decide

/-- Claim C4, counterexample: an IMAGE chip whose validity mask rejects
every matched pair (chipNoSurvivors) still produces a record with empty
position arrays and without raising, but its rms fields are not null —
they are overwritten with the external statistic of the empty residual
array (NaN in the original, the statistic's value here), not left None. -/
theorem zero_match_rms_not_null :
    ((extract_residuals scsLen [chipNoSurvivors]).bind
        (dictGet (PyKey.str "c.fits"))).map
        (fun r => (r.x, r.y, r.ref_x, r.ref_y, r.rms_x, r.rms_y)) =
      some ([], [], [], [], some 0, some 0) ∧
    (some (0 : ℚ) ≠ (none : Option ℚ)) := by
  refine ⟨rfl, ?_⟩
  decide

/-- Claim C5, counterexample: a chip whose fit status is the undocumented
value BOGUS is not rejected with a contract error — the run succeeds and
the chip is processed exactly as a valid IMAGE chip, its record tagged
type IMAGE. -/
theorem unknown_status_silently_processed :
    (extract_residuals scsLen [chipRefA, chipBogusStatus]).isSome = true ∧
    ((extract_residuals scsLen [chipRefA, chipBogusStatus]).bind
        (dictGet (PyKey.str "e.fits"))).map (fun r => r.type) =
      some (some "IMAGE") := by
  constructor
  · rfl
  · rfl

/-- Claim C9 (confirmed): on the spec's concrete scenario — group A
REFERENCE with world catalog [(10,20),(10.001,20.001)], group B IMAGE
with matched_input_idx=[0,1], matched_ref_idx=[0,1], fitmask=[true,true]
and shift (0.5,-0.3) — the record produced for B has type IMAGE,
xsh = 1/2, ysh = -3/10, nmatches equal to the fit's reported count, and
two entries in each of x, y, ref_x, ref_y. -/
theorem concrete_scenario_record :
    ((extract_residuals scsLen [chipA9, chipB9]).bind
        (dictGet (PyKey.str "B.fits"))).map
        (fun r => (r.type, r.xsh, r.ysh, r.nmatches,
                   r.x.length, r.y.length, r.ref_x.length, r.ref_y.length)) =
      some (some "IMAGE", some (1/2), some (-3/10), some chipB9.fit_info.nmatches,
            2, 2, 2, 2) := by
  rfl

/-- Claim C6 (code_bug): a missing point catalog for the first product of
a photometry batch is claimed to be logged and to skip only that product.
In the code the skip's `continue` governs the inner catalog-name loop, so
the unconditional ascii.read that follows raises FileNotFoundError; the
exception propagates, the batch aborts, and the second product — whose
catalogs are complete and which processes successfully on its own — is
never reached. -/
theorem photometry_missing_catalog_aborts_batch :
    compare_photometry sqId fsPhot matcherPhot [drizA, drizB] =
      Except.error ("FileNotFoundError: hst_11665_06_wfc3_ir_f110w_ib4606_point-cat.ecsv") ∧
    (compare_photometry sqId fsPhot matcherPhot [drizB]).toOption.isSome = true := by
  constructor
  · rfl
  · rfl

/-- Claim C8, counterexample: with an empty point catalog the external
cross-matcher returns zero matched indices for both catalogs, yet the
function does not report-and-return — the percentage computation in the
logging that precedes the zero-match guard divides by the catalog length
and raises a ZeroDivisionError. -/
theorem crossmatch_empty_catalog_raises :
    compare_ra_dec_crossmatches tblXmEmpty tblXm [] [] "hst_demo_drz.fits" =
      Except.error "ZeroDivisionError" ∧
    (Except.error "ZeroDivisionError" ≠
      (Except.ok none : Except String (Option String))) := by
  exact ⟨rfl, fun h => Except.noConfusion h⟩

/- ----------------------------------------------------------------- -/
/- Supporting lemmas                                                 -/
/- ----------------------------------------------------------------- -/

theorem dictGet_dictSet_self {α : Type} (k : PyKey) (v : α) (d : List (PyKey × α)) :
    dictGet k (dictSet k v d) = some v := by
  induction d with
  | nil => simp [dictGet, dictSet]
  | cons p rest ih =>
    obtain ⟨k0, v0⟩ := p
    by_cases h : k0 = k
    · simp [dictSet, h, dictGet]
    · simp [dictSet, h, dictGet, ih]

theorem dictGet_dictSet_ne {α : Type} (k k' : PyKey) (v : α) (d : List (PyKey × α))
    (h : k' ≠ k) : dictGet k (dictSet k' v d) = dictGet k d := by
  induction d with
  | nil => simp [dictGet, dictSet, h]
  | cons p rest ih =>
    obtain ⟨k0, v0⟩ := p
    by_cases h0 : k0 = k'
    · subst h0
      simp [dictSet, dictGet, h]
    · simp only [dictSet, if_neg h0, dictGet]
      by_cases h1 : k0 = k
      · simp [h1]
      · simp [h1, ih]

theorem dictGet_int_dictSet_str {α : Type} (n : Int) (s : String) (v : α)
    (d : List (PyKey × α)) :
    dictGet (PyKey.int n) (dictSet (PyKey.str s) v d) = dictGet (PyKey.int n) d :=
  dictGet_dictSet_ne _ _ _ _ (by intro h; exact PyKey.noConfusion h)

theorem pySub_some (a b d : List ℚ) (h : pySub a b = some d) :
    d = List.zipWith (fun u v => u - v) a b := by
  unfold pySub at h
  split at h
  · injection h with h'
    exact h'.symm
  · exact Option.noConfusion h

theorem imgRecordUpdate_shape (scs : List ℚ → ℚ) (ra rd : List ℚ) (cum : ℕ)
    (c : Chip) (r : GroupRecord) (ru : GroupRecord × ℕ)
    (h : imgRecordUpdate scs ra rd cum c r = some ru) :
    ∃ ix iy rx ry : List ℚ,
      ru.1 = { r with
        type := some "IMAGE",
        xsh := some c.fit_info.shift.1, ysh := some c.fit_info.shift.2,
        rot := some c.fit_info.rot, scale := some c.fit_info.scale,
        nmatches := some c.fit_info.nmatches, skew := some c.fit_info.skew,
        x := r.x ++ ix, y := r.y ++ iy,
        ref_x := r.ref_x ++ rx, ref_y := r.ref_y ++ ry,
        rms_x := some (scs (List.zipWith (fun a b => a - b) ix rx)),
        rms_y := some (scs (List.zipWith (fun a b => a - b) iy ry)) } := by
  unfold imgRecordUpdate at h
  simp only [bind, Option.bind_eq_some, Option.pure_def, Option.some.injEq] at h
  obtain ⟨ri, hri, ii, hii, tp, htp, rra, hrra, rdec, hrdec, rra2, hrra2,
    rdec2, hrdec2, dx, hdx, dy, hdy, hru⟩ := h
  have hdx' := pySub_some _ _ _ hdx
  have hdy' := pySub_some _ _ _ hdy
  subst hdx' hdy'
  refine ⟨tp.img_x, tp.img_y, ((rra2.zip rdec2).map c.world_to_tanp).map Prod.fst,
          ((rra2.zip rdec2).map c.world_to_tanp).map Prod.snd, ?_⟩
  rw [← hru]

theorem imgBranch_shape (scs : List ℚ → ℚ) (st : ResidState) (c : Chip)
    (st' : ResidState) (h : imgBranch scs st c = some st') :
    ∃ r0 ru, dictGet (PyKey.str c.filename) st.group_dict = some r0 ∧
      imgRecordUpdate scs st.ref_ra st.ref_dec st.cum_indx c r0 = some ru ∧
      st' = { st with
              group_dict := dictSet (PyKey.str c.filename) ru.1 st.group_dict,
              cum_indx := ru.2 } := by
  unfold imgBranch at h
  cases hg : dictGet (PyKey.str c.filename) st.group_dict with
  | none => rw [hg] at h; exact Option.noConfusion h
  | some r0 =>
    rw [hg] at h
    simp only [] at h
    cases hu : imgRecordUpdate scs st.ref_ra st.ref_dec st.cum_indx c r0 with
    | none => rw [hu] at h; exact Option.noConfusion h
    | some ru =>
      rw [hu] at h
      simp only [Option.some.injEq] at h
      exact ⟨r0, ru, rfl, hu, h.symm⟩

theorem imgBranch_build (scs : List ℚ → ℚ) (st : ResidState) (c : Chip)
    (r0 : GroupRecord) (ru : GroupRecord × ℕ)
    (hg : dictGet (PyKey.str c.filename) st.group_dict = some r0)
    (hu : imgRecordUpdate scs st.ref_ra st.ref_dec st.cum_indx c r0 = some ru) :
    imgBranch scs st c =
      some { st with
             group_dict := dictSet (PyKey.str c.filename) ru.1 st.group_dict,
             cum_indx := ru.2 } := by
  simp only [imgBranch, hg, hu]

/-- Claim C5, amended: the engine performs no validation of the fit
status value at all — every chip whose status is not the string REFERENCE
is processed by the IMAGE branch, and when that processing succeeds the
chip's record is tagged type IMAGE, with no contract error raised for an
unrecognized status. -/
theorem unknown_status_treated_as_image (scs : List ℚ → ℚ) (st : ResidState)
    (c : Chip) (st' : ResidState) (hstat : c.fit_info.status ≠ "REFERENCE")
    (h : processChip scs st c = some st') :
    ∃ r, dictGet (PyKey.str c.filename) st'.group_dict = some r ∧
      r.type = some "IMAGE" := by
  simp only [processChip] at h
  rw [if_neg hstat] at h
  obtain ⟨r0, ru, hg, hu, hs⟩ := imgBranch_shape _ _ _ _ h
  obtain ⟨ix, iy, rx, ry, hru1⟩ := imgRecordUpdate_shape _ _ _ _ _ _ _ hu
  refine ⟨ru.1, ?_, ?_⟩
  · rw [hs]
    exact dictGet_dictSet_self _ _ _
  · rw [hru1]

/-- Witness for unknown_status_treated_as_image at the concrete
unknown-status chip processed from the one-reference state. -/
theorem unknown_status_treated_as_image_witness :
    ∃ r, dictGet (PyKey.str "e.fits") stAfterBogus.group_dict = some r ∧
      r.type = some "IMAGE" :=
  unknown_status_treated_as_image scsLen stOneRef chipBogusStatus stAfterBogus
    (by decide) (by rfl)

/-- Claim C2, amended: after the engine processes a chip of an IMAGE
group, rms_x/rms_y are the external clipped statistic of exactly that
chip's image-minus-reference residuals — which, because the membership
guard re-creates the record on every chip, coincide with the record's
stored accumulators — and the resulting record is entirely independent of
whatever had accumulated under the same group name before the chip (any
prior state with the same reference buffers yields the same record). -/
theorem rms_latest_chip_only (scs : List ℚ → ℚ) (st1 st2 : ResidState) (c : Chip)
    (st1' : ResidState)
    (h1 : dictContains (PyKey.int c.group_id) st1.group_dict = false)
    (h2 : dictContains (PyKey.int c.group_id) st2.group_dict = false)
    (hra : st1.ref_ra = st2.ref_ra) (hrd : st1.ref_dec = st2.ref_dec)
    (hstat : c.fit_info.status ≠ "REFERENCE")
    (hp : processChip scs st1 c = some st1') :
    (∃ r, dictGet (PyKey.str c.filename) st1'.group_dict = some r ∧
       r.rms_x = some (scs (List.zipWith (fun a b => a - b) r.x r.ref_x)) ∧
       r.rms_y = some (scs (List.zipWith (fun a b => a - b) r.y r.ref_y))) ∧
    (∃ st2', processChip scs st2 c = some st2' ∧
       dictGet (PyKey.str c.filename) st2'.group_dict =
         dictGet (PyKey.str c.filename) st1'.group_dict) := by
  simp only [processChip, h1, Bool.false_eq_true, if_false] at hp
  rw [if_neg hstat] at hp
  obtain ⟨r0, ru, hg, hu, hs⟩ := imgBranch_shape _ _ _ _ hp
  have hg' : dictGet (PyKey.str c.filename)
      (dictSet (PyKey.str c.filename) (freshRecord c.group_id) st1.group_dict) =
      some r0 := hg
  rw [dictGet_dictSet_self] at hg'
  injection hg' with hr0
  subst hr0
  have hu' : imgRecordUpdate scs st1.ref_ra st1.ref_dec 0 c
      (freshRecord c.group_id) = some ru := hu
  obtain ⟨ix, iy, rx, ry, hru1⟩ := imgRecordUpdate_shape _ _ _ _ _ _ _ hu'
  have hu2 : imgRecordUpdate scs st2.ref_ra st2.ref_dec 0 c
      (freshRecord c.group_id) = some ru := by
    rw [← hra, ← hrd]
    exact hu'
  constructor
  · refine ⟨ru.1, ?_, ?_, ?_⟩
    · rw [hs]
      exact dictGet_dictSet_self _ _ _
    · rw [hru1]
      simp [freshRecord]
    · rw [hru1]
      simp [freshRecord]
  · refine ⟨{ st2 with
        group_dict := dictSet (PyKey.str c.filename) ru.1
          (dictSet (PyKey.str c.filename) (freshRecord c.group_id) st2.group_dict),
        cum_indx := ru.2 }, ?_, ?_⟩
    · simp only [processChip, h2, Bool.false_eq_true, if_false]
      rw [if_neg hstat]
      exact imgBranch_build scs
        { st2 with
          group_dict := dictSet (PyKey.str c.filename) (freshRecord c.group_id)
            st2.group_dict,
          cum_indx := 0 } c (freshRecord c.group_id) ru
        (dictGet_dictSet_self _ _ _) hu2
    · rw [hs]
      exact (dictGet_dictSet_self _ _ _).trans (dictGet_dictSet_self _ _ _).symm

/-- Witness for rms_latest_chip_only: chipB1 processed from the
one-reference state versus the state that additionally holds an unrelated
prior binding and a nonzero prior offset. -/
theorem rms_latest_chip_only_witness :
    (∃ r, dictGet (PyKey.str "b.fits") stAfterB1.group_dict = some r ∧
       r.rms_x = some (scsLen (List.zipWith (fun a b => a - b) r.x r.ref_x)) ∧
       r.rms_y = some (scsLen (List.zipWith (fun a b => a - b) r.y r.ref_y))) ∧
    (∃ st2', processChip scsLen stOneRefOther chipB1 = some st2' ∧
       dictGet (PyKey.str "b.fits") st2'.group_dict =
         dictGet (PyKey.str "b.fits") stAfterB1.group_dict) :=
  rms_latest_chip_only scsLen stOneRef stOneRefOther chipB1 stAfterB1
    (by decide) (by decide) (by rfl) (by rfl) (by decide) (by rfl)

theorem refBranch_shape (st : ResidState) (c : Chip) (st' : ResidState)
    (h : refBranch st c = some st') :
    ∃ r0, dictGet (PyKey.str c.filename) st.group_dict = some r0 ∧
      st' = { st with
              group_dict := dictSet (PyKey.str c.filename)
                { r0 with type := some "REFERENCE" } st.group_dict,
              ref_ra := st.ref_ra ++ (c.catalog.map c.det_to_world).map Prod.fst,
              ref_dec := st.ref_dec ++ (c.catalog.map c.det_to_world).map Prod.snd } := by
  unfold refBranch at h
  cases hg : dictGet (PyKey.str c.filename) st.group_dict with
  | none => rw [hg] at h; exact Option.noConfusion h
  | some r0 =>
    rw [hg] at h
    simp only [Option.some.injEq] at h
    exact ⟨r0, rfl, h.symm⟩

theorem processChip_inv (scs : List ℚ → ℚ) (st : ResidState) (c : Chip)
    (st' : ResidState) (h : processChip scs st c = some st')
    (hinv : ResidInv st.group_dict) : ResidInv st'.group_dict := by
  have hcon : dictContains (PyKey.int c.group_id) st.group_dict = false := by
    unfold dictContains
    rw [hinv.1]
    rfl
  simp only [processChip, hcon, Bool.false_eq_true, if_false] at h
  by_cases hs : c.fit_info.status = "REFERENCE"
  · rw [if_pos hs] at h
    obtain ⟨r0, hg, hst⟩ := refBranch_shape _ _ _ h
    have hg' : dictGet (PyKey.str c.filename)
        (dictSet (PyKey.str c.filename) (freshRecord c.group_id) st.group_dict) =
        some r0 := hg
    rw [dictGet_dictSet_self] at hg'
    injection hg' with hr0
    subst hst
    show ResidInv (dictSet (PyKey.str c.filename) { r0 with type := some "REFERENCE" }
      (dictSet (PyKey.str c.filename) (freshRecord c.group_id) st.group_dict))
    constructor
    · intro n
      rw [dictGet_int_dictSet_str, dictGet_int_dictSet_str]
      exact hinv.1 n
    · intro k r hk ht
      by_cases hk2 : k = PyKey.str c.filename
      · subst hk2
        rw [dictGet_dictSet_self] at hk
        injection hk with hr
        rw [← hr, ← hr0]
        exact ⟨rfl, rfl, rfl, rfl⟩
      · rw [dictGet_dictSet_ne _ _ _ _ (fun he => hk2 he.symm),
            dictGet_dictSet_ne _ _ _ _ (fun he => hk2 he.symm)] at hk
        exact hinv.2 k r hk ht
  · rw [if_neg hs] at h
    obtain ⟨r0, ru, hg, hu, hst⟩ := imgBranch_shape _ _ _ _ h
    obtain ⟨ix, iy, rx, ry, hru1⟩ := imgRecordUpdate_shape _ _ _ _ _ _ _ hu
    subst hst
    show ResidInv (dictSet (PyKey.str c.filename) ru.1
      (dictSet (PyKey.str c.filename) (freshRecord c.group_id) st.group_dict))
    constructor
    · intro n
      rw [dictGet_int_dictSet_str, dictGet_int_dictSet_str]
      exact hinv.1 n
    · intro k r hk ht
      by_cases hk2 : k = PyKey.str c.filename
      · subst hk2
        rw [dictGet_dictSet_self] at hk
        injection hk with hr
        rw [← hr, hru1] at ht
        simp at ht
      · rw [dictGet_dictSet_ne _ _ _ _ (fun he => hk2 he.symm),
            dictGet_dictSet_ne _ _ _ _ (fun he => hk2 he.symm)] at hk
        exact hinv.2 k r hk ht

theorem runChips_inv (scs : List ℚ → ℚ) : ∀ (cs : List Chip) (st st' : ResidState),
    runChips (processChip scs) st cs = some st' →
    ResidInv st.group_dict → ResidInv st'.group_dict := by
  intro cs
  induction cs with
  | nil =>
    intro st st' h hi
    unfold runChips at h
    injection h with h'
    rw [← h']
    exact hi
  | cons c rest ih =>
    intro st st' h hi
    unfold runChips at h
    cases hp : processChip scs st c with
    | none => rw [hp] at h; exact Option.noConfusion h
    | some st2 =>
      rw [hp] at h
      exact ih st2 st' h (processChip_inv scs st c st2 hp hi)

theorem get_tangent_positions_nil (c : Chip) (start : ℕ) :
    get_tangent_positions c [] start =
      some { img_x := [], img_y := [], max_indx := c.catalog.length,
             chip_indx := [] } := by
  unfold get_tangent_positions wherePositions
  simp [gather]

/-- Claim C4, amended: in every result of the engine a REFERENCE-tagged
record has empty x/y/ref_x/ref_y, and an IMAGE chip for which zero
matched indices survive the fit's validity mask still processes without
an exception into a record with empty position arrays — but its
rms_x/rms_y are not left null: they are overwritten with the external
statistic applied to the empty residual array (NaN under astropy's
defaults). -/
theorem reference_empty_and_zero_match_nonnull :
    (∀ (scs : List ℚ → ℚ) (chips : List Chip) (d : List (PyKey × GroupRecord)),
      extract_residuals scs chips = some d →
      ∀ k r, dictGet k d = some r → r.type = some "REFERENCE" →
        r.x = [] ∧ r.y = [] ∧ r.ref_x = [] ∧ r.ref_y = []) ∧
    (∀ (scs : List ℚ → ℚ) (st : ResidState) (c : Chip),
      dictContains (PyKey.int c.group_id) st.group_dict = false →
      c.fit_info.status ≠ "REFERENCE" →
      boolMask c.fit_info.fitmask c.fit_info.matched_ref_idx = some [] →
      boolMask c.fit_info.fitmask c.fit_info.matched_input_idx = some [] →
      ∃ st', processChip scs st c = some st' ∧
        ∃ r, dictGet (PyKey.str c.filename) st'.group_dict = some r ∧
          r.x = [] ∧ r.y = [] ∧ r.ref_x = [] ∧ r.ref_y = [] ∧
          r.rms_x = some (scs []) ∧ r.rms_y = some (scs [])) := by
  constructor
  · intro scs chips d hd k r hk ht
    unfold extract_residuals at hd
    cases hrun : runChips (processChip scs) initResidState chips with
    | none => rw [hrun] at hd; exact Option.noConfusion hd
    | some stf =>
      rw [hrun] at hd
      simp only [Option.map_some', Option.some.injEq] at hd
      have hi := runChips_inv scs chips initResidState stf hrun
        ⟨fun _ => rfl, fun _ _ hk0 _ => Option.noConfusion hk0⟩
      rw [← hd] at hk
      exact hi.2 k r hk ht
  · intro scs st c hcon hstat hm1 hm2
    have hu : imgRecordUpdate scs st.ref_ra st.ref_dec 0 c
        (freshRecord c.group_id) =
        some ({ freshRecord c.group_id with
                type := some "IMAGE",
                xsh := some c.fit_info.shift.1, ysh := some c.fit_info.shift.2,
                rot := some c.fit_info.rot, scale := some c.fit_info.scale,
                nmatches := some c.fit_info.nmatches, skew := some c.fit_info.skew,
                rms_x := some (scs []), rms_y := some (scs []) },
              0 + c.catalog.length) := by
      unfold imgRecordUpdate
      simp only [hm1, hm2]
      rfl
    refine ⟨{ st with
        group_dict := dictSet (PyKey.str c.filename)
          { freshRecord c.group_id with
            type := some "IMAGE",
            xsh := some c.fit_info.shift.1, ysh := some c.fit_info.shift.2,
            rot := some c.fit_info.rot, scale := some c.fit_info.scale,
            nmatches := some c.fit_info.nmatches, skew := some c.fit_info.skew,
            rms_x := some (scs []), rms_y := some (scs []) }
          (dictSet (PyKey.str c.filename) (freshRecord c.group_id) st.group_dict),
        cum_indx := 0 + c.catalog.length }, ?_, ?_⟩
    · simp only [processChip, hcon, Bool.false_eq_true, if_false]
      rw [if_neg hstat]
      exact imgBranch_build scs
        { st with
          group_dict := dictSet (PyKey.str c.filename) (freshRecord c.group_id)
            st.group_dict,
          cum_indx := 0 } c (freshRecord c.group_id) _
        (dictGet_dictSet_self _ _ _) hu
    · exact ⟨_, dictGet_dictSet_self _ _ _, rfl, rfl, rfl, rfl, rfl, rfl⟩

/-- Witness for reference_empty_and_zero_match_nonnull, instantiating its
second half at the all-rejected-matches chip from the empty state. -/
theorem reference_empty_and_zero_match_nonnull_witness :
    ∃ st', processChip scsLen initResidState chipNoSurvivors = some st' ∧
      ∃ r, dictGet (PyKey.str "c.fits") st'.group_dict = some r ∧
        r.x = [] ∧ r.y = [] ∧ r.ref_x = [] ∧ r.ref_y = [] ∧
        r.rms_x = some (scsLen []) ∧ r.rms_y = some (scsLen []) :=
  reference_empty_and_zero_match_nonnull.2 scsLen initResidState chipNoSurvivors
    (by decide) (by decide) (by decide) (by decide)

theorem pyMax_le_sum : ∀ (l : List ℕ) (m : ℕ), pyMax l = some m → m ≤ l.sum := by
  intro l
  induction l with
  | nil => intro m h; exact Option.noConfusion h
  | cons a rest ih =>
    intro m h
    unfold pyMax at h
    cases hr : pyMax rest with
    | none =>
      rw [hr] at h
      injection h with h'
      subst h'
      rw [List.sum_cons]
      exact Nat.le_add_right _ _
    | some k =>
      rw [hr] at h
      injection h with h'
      subst h'
      rw [List.sum_cons]
      exact max_le (Nat.le_add_right a _) (le_trans (ih k hr) (Nat.le_add_left _ _))

theorem pyMax_of_ne_nil (l : List ℕ) (h : l ≠ []) : ∃ m, pyMax l = some m := by
  cases l with
  | nil => exact absurd rfl h
  | cons a rest =>
    unfold pyMax
    cases hr : pyMax rest with
    | none => exact ⟨a, rfl⟩
    | some k => exact ⟨max a k, rfl⟩

/-- Claim C3, amended: for every call on at least one input file, fewer
than 4 detected sources in total short-circuits the call into the
no-result signal before any matching is attempted (the code's guard —
`max` of the per-file totals at most 3 — is implied); and matching is
attempted only when at least 4 sources were detected in total.  On an
empty file list the call instead raises (see
alignment_empty_input_raises). -/
theorem alignment_guard_amended (files : List (List ℕ)) :
    (files ≠ [] → (files.map List.sum).sum < 4 →
      determine_alignment_residuals files = AlignOutcome.noresult) ∧
    (determine_alignment_residuals files = AlignOutcome.proceeded →
      4 ≤ (files.map List.sum).sum) := by
  constructor
  · intro hne hlt
    obtain ⟨m, hm⟩ := pyMax_of_ne_nil (files.map List.sum) (by simpa using hne)
    have hm3 : m ≤ 3 := by
      have := pyMax_le_sum _ _ hm
      omega
    simp only [determine_alignment_residuals, hm]
    rw [if_pos hm3]
  · intro h
    cases hm : pyMax (files.map List.sum) with
    | none =>
      simp only [determine_alignment_residuals, hm] at h
      exact AlignOutcome.noConfusion h
    | some m =>
      simp only [determine_alignment_residuals, hm] at h
      by_cases hm3 : m ≤ 3
      · rw [if_pos hm3] at h
        exact AlignOutcome.noConfusion h
      · have h4 : 4 ≤ m := by omega
        exact le_trans h4 (pyMax_le_sum _ _ hm)

/-- Witness for alignment_guard_amended: two files with 1 and 2 sources
(3 in total) short-circuit to the no-result signal. -/
theorem alignment_guard_amended_witness :
    determine_alignment_residuals [[1], [2]] = AlignOutcome.noresult :=
  (alignment_guard_amended [[1], [2]]).1 (by decide) (by decide)

/-- Claim C8, amended: provided both catalogs are nonempty, a zero-match
result from the external cross-matcher for either catalog makes
compare_ra_dec_crossmatches report the condition and return without
producing a statistics record or a JSON artifact, and without raising;
with an empty catalog the logging's percentage computation raises first
(see crossmatch_empty_catalog_raises). -/
theorem crossmatch_zero_matches_no_artifact (tabP tabS : CatTable)
    (mref mimg : List ℕ) (fn : String)
    (h0 : tabP.nrows ≠ 0) (h1 : tabS.nrows ≠ 0)
    (hm : mref.length = 0 ∨ mimg.length = 0) :
    compare_ra_dec_crossmatches tabP tabS mref mimg fn = Except.ok none := by
  have hno : ¬ (tabP.nrows = 0 ∨ tabS.nrows = 0) := by
    rintro (h | h)
    · exact h0 h
    · exact h1 h
  simp only [compare_ra_dec_crossmatches]
  rw [if_neg hno, if_pos hm]

/-- Witness for crossmatch_zero_matches_no_artifact at two-row catalogs
with an empty point-side match list. -/
theorem crossmatch_zero_matches_no_artifact_witness :
    compare_ra_dec_crossmatches tblXm tblXm [] [0] "hst_demo_drz.fits" =
      Except.ok none :=
  crossmatch_zero_matches_no_artifact tblXm tblXm [] [0] "hst_demo_drz.fits"
    (by decide) (by decide) (Or.inl rfl)

/-- Claim C10 (confirmed): in the compare_num_sources loop body for one
drizzle product, a catalog name that does not occur (as a substring) in
the supplied catalog list leaves that catalog type's count at its default
0, while a catalog that does occur but whose leading comment lines carry
no 'Number of sources' entry records -1; the product's JSON artifact is
written either way. -/
theorem num_sources_defaults (catalog_list : List String)
    (fs : String → Option (List String)) (drizzle_file detector ipppss prefx : String)
    (lines : List String)
    (h4 : (pySplit drizzle_file '_').get? 4 = some detector)
    (h6 : (pySplit drizzle_file '_').get? 6 = some ipppss)
    (hpre : prefx = String.intercalate "_" (pySplit drizzle_file '_').dropLast)
    (hpt : catalog_list.any (fun x => pyIn (prefx ++ "_point-cat.ecsv") x) = false)
    (hseg : catalog_list.any (fun x => pyIn (prefx ++ "_segment-cat.ecsv") x) = true)
    (hfs : fs (prefx ++ "_segment-cat.ecsv") = some lines)
    (hscan : scanNumSources lines = none)
    (hct : pyIn "point" (prefx ++ "_segment-cat.ecsv") = false) :
    compare_num_sources_product catalog_list fs drizzle_file =
      Except.ok (ipppss ++ "_" ++ detector ++ "_svm_num_sources.json",
                 { detector := detector, point := 0, segment := -1 }) := by
  subst hpre
  simp only [compare_num_sources_product, h4, h6, toExc]
  simp only [processCatalog, hpt, hseg, hfs, hscan, catType, hct]
  simp only [setCatCount]
  rfl

/-- Witness for num_sources_defaults: a product whose point catalog is
absent from the catalog list and whose segment catalog exists with a
header that never reports a source count. -/
theorem num_sources_defaults_witness :
    compare_num_sources_product [segN] fsNum drizN =
      Except.ok ("ib4606_ir_svm_num_sources.json",
                 { detector := "ir", point := 0, segment := -1 }) :=
  num_sources_defaults [segN] fsNum drizN "ir" "ib4606"
    "hst_11665_06_wfc3_ir_total_ib4606"
    ["# comment header", "1.0 2.0 3.0"]
    (by rfl) (by rfl) (by rfl) (by decide) (by decide) (by rfl) (by rfl)
    (by decide)

theorem compress_map {α β : Type} (f : α → β) :
    ∀ (m : List Bool) (l : List α), compress m (l.map f) = (compress m l).map f := by
  intro m
  induction m with
  | nil => intro l; cases l <;> simp [compress]
  | cons t ms ih =>
    intro l
    cases l with
    | nil => simp [compress]
    | cons a as =>
      cases t
      · simp [compress, ih]
      · simp [compress, ih]

theorem compress_zipWith {α β γ : Type} (f : α → β → γ) :
    ∀ (m : List Bool) (a : List α) (b : List β), a.length = b.length →
      List.zipWith f (compress m a) (compress m b) =
        (compress m (a.zip b)).map (fun p => f p.1 p.2) := by
  intro m
  induction m with
  | nil =>
    intro a b h
    cases a <;> cases b <;> simp [compress]
  | cons t ms ih =>
    intro a b h
    cases a with
    | nil =>
      cases b with
      | nil => simp [compress]
      | cons y bs => simp at h
    | cons x as =>
      cases b with
      | nil => simp at h
      | cons y bs =>
        have h' : as.length = bs.length := by simpa using h
        cases t
        · simp [compress, ih as bs h', List.zip]
        · simp [compress, ih as bs h', List.zip]

theorem delta_eq_maskSurvivingDiffs (tabP tabS : CatTable) (mP mS : List ℕ)
    (mask : List Bool) (pc : String) (hlen : mP.length = mS.length) :
    List.zipWith (fun a b => a - b)
        (compress mask (mP.map (tabP.val pc))) (compress mask (mS.map (tabS.val pc))) =
      maskSurvivingDiffs tabP tabS mP mS mask pc := by
  rw [compress_zipWith (fun a b => a - b) mask _ _ (by simp [hlen])]
  rw [List.zip_map]
  rw [compress_map]
  rw [List.map_map]
  rfl

theorem extractMatchedLines_eq (col : String) (tabA tabB : CatTable)
    (idxA idxB : List ℕ) (m : List Bool)
    (hA : col ∈ tabA.colnames) (hB : col ∈ tabB.colnames)
    (hbA : allInBounds idxA tabA.nrows = true)
    (hbB : allInBounds idxB tabB.nrows = true) :
    extractMatchedLines col tabA tabB idxA idxB (some m) =
      some (compress m (idxA.map (tabA.val col)),
            compress m (idxB.map (tabB.val col))) := by
  unfold extractMatchedLines
  rw [if_pos ⟨hA, hB⟩, if_pos ⟨hbA, hbB⟩]

/-- Claim C7 (confirmed): the statistics retained in the per-column stat
record of compare_photometry are exactly the mean, standard deviation and
median of the raw point-minus-segment differences over the mask-surviving
matched pairs; the quadrature-propagated per-pair errors are computed (the
second component) but do not enter the record — the record is unchanged
under any change of the error-column values. -/
theorem photometry_stats_retained (sq : ℚ → ℚ) (tabP tabS tabP' tabS' : CatTable)
    (mP mS : List ℕ) (mask : List Bool) (pc ec : String)
    (hlen : mP.length = mS.length)
    (hpP : pc ∈ tabP.colnames) (hpS : pc ∈ tabS.colnames)
    (heP : ec ∈ tabP.colnames) (heS : ec ∈ tabS.colnames)
    (hbP : allInBounds mP tabP.nrows = true)
    (hbS : allInBounds mS tabS.nrows = true)
    (hc' : tabP'.colnames = tabP.colnames) (hcS' : tabS'.colnames = tabS.colnames)
    (hn' : tabP'.nrows = tabP.nrows) (hnS' : tabS'.nrows = tabS.nrows)
    (hv' : tabP'.val pc = tabP.val pc) (hvS' : tabS'.val pc = tabS.val pc) :
    (∃ E, photColumnStats sq tabP tabS mP mS mask pc ec =
       some ({ mean_diff := npMean (maskSurvivingDiffs tabP tabS mP mS mask pc),
               std_diff := npStd sq (maskSurvivingDiffs tabP tabS mP mS mask pc),
               median_diff := npMedian (maskSurvivingDiffs tabP tabS mP mS mask pc) },
             E)) ∧
    ((photColumnStats sq tabP' tabS' mP mS mask pc ec).map Prod.fst =
       some { mean_diff := npMean (maskSurvivingDiffs tabP tabS mP mS mask pc),
              std_diff := npStd sq (maskSurvivingDiffs tabP tabS mP mS mask pc),
              median_diff := npMedian (maskSurvivingDiffs tabP tabS mP mS mask pc) }) := by
  have he1 := extractMatchedLines_eq pc tabP tabS mP mS mask hpP hpS hbP hbS
  have he2 := extractMatchedLines_eq ec tabP tabS mP mS mask heP heS hbP hbS
  have hd := delta_eq_maskSurvivingDiffs tabP tabS mP mS mask pc hlen
  constructor
  · refine ⟨List.zipWith (fun a b => sq (a * a + b * b))
      (compress mask (mP.map (tabP.val ec))) (compress mask (mS.map (tabS.val ec))), ?_⟩
    simp only [photColumnStats, he1, he2]
    rw [← hd]
    rfl
  · have hpP' : pc ∈ tabP'.colnames := by rw [hc']; exact hpP
    have hpS' : pc ∈ tabS'.colnames := by rw [hcS']; exact hpS
    have heP' : ec ∈ tabP'.colnames := by rw [hc']; exact heP
    have heS' : ec ∈ tabS'.colnames := by rw [hcS']; exact heS
    have hbP' : allInBounds mP tabP'.nrows = true := by rw [hn']; exact hbP
    have hbS' : allInBounds mS tabS'.nrows = true := by rw [hnS']; exact hbS
    have he1' := extractMatchedLines_eq pc tabP' tabS' mP mS mask hpP' hpS' hbP' hbS'
    have he2' := extractMatchedLines_eq ec tabP' tabS' mP mS mask heP' heS' hbP' hbS'
    simp only [photColumnStats, he1', he2']
    rw [hv', hvS', ← hd]
    rfl

/-- Witness for photometry_stats_retained at concrete two-row catalogs,
one surviving matched pair, and the identity square-root stand-in. -/
theorem photometry_stats_retained_witness :
    (∃ E, photColumnStats sqId tblWP tblWS [0, 1] [1, 0] [true, false]
        "MagAp1" "MagErrAp1" =
      some ({ mean_diff :=
                npMean (maskSurvivingDiffs tblWP tblWS [0, 1] [1, 0] [true, false] "MagAp1"),
              std_diff :=
                npStd sqId (maskSurvivingDiffs tblWP tblWS [0, 1] [1, 0] [true, false] "MagAp1"),
              median_diff :=
                npMedian (maskSurvivingDiffs tblWP tblWS [0, 1] [1, 0] [true, false] "MagAp1") },
            E)) ∧
    ((photColumnStats sqId tblWP tblWS [0, 1] [1, 0] [true, false]
        "MagAp1" "MagErrAp1").map Prod.fst =
      some { mean_diff :=
               npMean (maskSurvivingDiffs tblWP tblWS [0, 1] [1, 0] [true, false] "MagAp1"),
             std_diff :=
               npStd sqId (maskSurvivingDiffs tblWP tblWS [0, 1] [1, 0] [true, false] "MagAp1"),
             median_diff :=
               npMedian (maskSurvivingDiffs tblWP tblWS [0, 1] [1, 0] [true, false] "MagAp1") }) :=
  photometry_stats_retained sqId tblWP tblWS tblWP tblWS [0, 1] [1, 0]
    [true, false] "MagAp1" "MagErrAp1" rfl
    (by decide) (by decide) (by decide) (by decide) (by decide) (by decide)
    rfl rfl rfl rfl rfl rfl

end Drizzlepac
